import Mathlib

/-!
Shallow embedding of the `tournament-hub-sc` MultiversX smart contract
(`src/tournament-hub-sc/src/**`) and proofs about its specification.

Modelling conventions:
* `ManagedAddress` is modelled by its raw identity bytes (`List Nat`).
* `BigUint` amounts are `Nat` (arbitrary precision, no overflow).
* Fixed-width integers (`u32`, `u64`) are `Nat` with an explicit
  `% 2^32` / `% 2^64` where the Rust arithmetic can wrap; the contract is
  deployed as a release-mode wasm build, where integer overflow wraps.
* `u32 as i32` casts are modelled by two's-complement reinterpretation.
* Contract storage is an explicit `State` record; every endpoint is a pure
  function `State → args → Except String State` where `Except.error` models
  an aborted call (MultiversX `require!` / `sc_panic!` roll back every
  storage change and payment of the failing call, so a failed call has no
  state change by construction).
* External primitives: the block timestamp and the caller are explicit
  arguments; the ed25519 signature check (`crypto().verify_ed25519`, which
  aborts the call on failure) is an explicit boolean oracle argument.
* Events are pure logging and are not modelled.
-/

namespace TournamentHub

/-- Raw identity bytes of a `ManagedAddress`. -/
abbrev Address := List Nat

/-- Modulus of the Rust `u32` type. -/
def U32MOD : Nat := 4294967296

/-- Modulus of the Rust `u64` type. -/
def U64MOD : Nat := 18446744073709551616

/-- Reinterpretation of a `u32` value as an `i32`, as performed by the Rust
cast `x as i32` (two's complement; defined behaviour in both debug and
release builds). -/
def toI32 (n : Nat) : Int :=
  if n < 2147483648 then (n : Int) else (n : Int) - 4294967296

/-- Wrapping of an integer into the `i32` range, matching release-mode
two's-complement arithmetic on `i32`. -/
def wrapI32 (x : Int) : Int :=
  (x + 2147483648) % 4294967296 - 2147483648

/-- Constant `MIN_POINTS` from `tournament_logic/ranking_system.rs`. -/
def MIN_POINTS : Nat := 2

/-- Constant `MAX_POINTS` from `tournament_logic/ranking_system.rs`. -/
def MAX_POINTS : Nat := 20

/-- Embedding of `calculate_telo_change` from
`tournament_logic/ranking_system.rs` (lines 23-66).  The Rust code computes
`let rating_diff = winner_rating as i32 - loser_rating as i32;` — a
two's-complement reinterpretation of each `u32` followed by an `i32`
subtraction (wrapping in the release build) — and then a stepped match on
`rating_diff`. -/
def calculate_telo_change (winner_rating loser_rating : Nat) : Nat :=
  let rating_diff : Int := wrapI32 (toI32 winner_rating - toI32 loser_rating)
  if rating_diff ≥ 400 then MIN_POINTS
  else if rating_diff ≥ 200 then MIN_POINTS + 3
  else if rating_diff ≥ 100 then MIN_POINTS + 6
  else if rating_diff ≥ 50 then MIN_POINTS + 9
  else if rating_diff ≥ -50 then MIN_POINTS + 11
  else if rating_diff ≥ -100 then MIN_POINTS + 13
  else if rating_diff ≥ -200 then MIN_POINTS + 15
  else if rating_diff ≥ -400 then MIN_POINTS + 17
  else MAX_POINTS

/-- Stepped function exactly as the specification words it: a function of the
mathematical difference `winner_rating - loser_rating` (no fixed-width
reinterpretation).  This definition follows the spec's words and is compared
against the source embedding `calculate_telo_change`. -/
def claimed_telo_change (winner_rating loser_rating : Nat) : Nat :=
  let rating_diff : Int := (winner_rating : Int) - (loser_rating : Int)
  if rating_diff ≥ 400 then 2
  else if rating_diff ≥ 200 then 5
  else if rating_diff ≥ 100 then 8
  else if rating_diff ≥ 50 then 11
  else if rating_diff ≥ -50 then 13
  else if rating_diff ≥ -100 then 15
  else if rating_diff ≥ -200 then 17
  else if rating_diff ≥ -400 then 19
  else 20

/-- Embedding of `GameConfig` from `models.rs`. -/
structure GameConfig where
  signing_server_address : Address
  podium_size : Nat
  prize_distribution_percentages : List Nat
  house_fee_percentage : Nat
  allow_late_join : Bool
deriving DecidableEq

/-- Embedding of `TournamentStatus` from `models.rs`. -/
inductive TournamentStatus where
  | Joining
  | ReadyToStart
  | Active
  | ProcessingResults
  | Completed
deriving DecidableEq

/-- Embedding of the `Tournament` record as constructed and consumed by
`tournament_logic/tournament_management.rs` (the variant of the struct with
a `duration` field, which is the one the lifecycle endpoints read and
write). -/
structure Tournament where
  game_id : Nat
  status : TournamentStatus
  participants : List Address
  final_podium : List Address
  creator : Address
  max_players : Nat
  min_players : Nat
  entry_fee : Nat
  duration : Nat
  name : List Nat
  created_at : Nat
deriving DecidableEq

/-- Embedding of `SpectatorBet` from `models.rs`. -/
structure SpectatorBet where
  bettor_address : Address
  amount : Nat
deriving DecidableEq

/-- Embedding of `UserStats` from `models.rs`. -/
structure UserStats where
  games_played : Nat
  wins : Nat
  losses : Nat
  win_rate : Nat
  tokens_won : Nat
  tokens_spent : Nat
  tournaments_created : Nat
  tournaments_won : Nat
  current_streak : Nat
  best_streak : Nat
  last_activity : Nat
  member_since : Nat
  telo_rating : Nat
deriving DecidableEq

/-- Contract storage (`storage.rs`), together with a log of the EGLD
transfers the contract has sent (`send().direct_egld` calls), oldest first.
Storage mappers keyed by an address or id are modelled as functions;
`SingleValueMapper<UserStats>` distinguishes "empty" from "set", hence the
`Option`.  The `UnorderedSetMapper`s are modelled as duplicate-free lists. -/
structure State where
  registered_games : List GameConfig
  active_tournaments : List Tournament
  spectator_bets : Nat → Address → List SpectatorBet
  spectator_pool_total : Nat → Nat
  spectator_claims : List (List Nat)
  house_fee_percentage : Nat
  accumulated_house_fees : Nat
  tournament_fee : Nat
  user_stats : Address → Option UserStats
  user_tournaments_created : Address → List Nat
  user_tournaments_joined : Address → List Nat
  user_tournaments_won : Address → List Nat
  total_tournaments_created : Nat
  total_tournaments_completed : Nat
  payouts : List (Address × Nat)

/-- Bounds-checked 1-based lookup in the `active_tournaments` `VecMapper`:
the `require!(index > 0 && index <= len, "Tournament does not exist")`
followed by `.get(index)` that every endpoint performs. -/
def tournamentAt (s : State) (tournament_index : Nat) : Option Tournament :=
  if 0 < tournament_index ∧ tournament_index ≤ s.active_tournaments.length then
    s.active_tournaments.get? (tournament_index - 1)
  else none

/-- Bounds-checked 1-based lookup in the `registered_games` `VecMapper`. -/
def gameAt (s : State) (game_index : Nat) : Option GameConfig :=
  if 0 < game_index ∧ game_index ≤ s.registered_games.length then
    s.registered_games.get? (game_index - 1)
  else none

/-- Running u32 sum `total_percentage += percentage` from `register_game`
(`tournament_logic/game_registration.rs` lines 25-28); the addition wraps at
`2^32` in the release-mode wasm build. -/
def sum_percentages_u32 (l : List Nat) : Nat :=
  l.foldl (fun acc p => (acc + p) % U32MOD) 0

/-- Embedding of the owner-only endpoint `register_game` from
`tournament_logic/game_registration.rs` (lines 8-45).  Owner gating is an
authorization precondition of the call and is not part of the state
transition itself. -/
def register_game (s : State) (signing_server_address : Address) (podium_size : Nat)
    (prize_distribution_percentages : List Nat) (allow_late_join : Bool) :
    Except String State :=
  if 0 < podium_size then
    if prize_distribution_percentages.length = podium_size then
      if sum_percentages_u32 prize_distribution_percentages = 10000 then
        Except.ok { s with registered_games := s.registered_games ++
          [{ signing_server_address := signing_server_address,
             podium_size := podium_size,
             prize_distribution_percentages := prize_distribution_percentages,
             house_fee_percentage := s.house_fee_percentage,
             allow_late_join := allow_late_join }] }
      else Except.error "Prize distribution percentages must sum to 10,000 (100.00%)"
    else Except.error "Prize distribution must match podium size"
  else Except.error "Podium size must be greater than 0"

/-- Embedding of the owner-only endpoint `set_house_fee_percentage` from
`tournament_logic/game_registration.rs` (lines 50-58). -/
def set_house_fee_percentage (s : State) (new_fee : Nat) : Except String State :=
  if new_fee ≤ 10000 then
    Except.ok { s with house_fee_percentage := new_fee }
  else Except.error "House fee cannot exceed 10,000 (100.00%)"

/-- Insertion into an `UnorderedSetMapper<u64>` modelled as a list. -/
def natSetInsert (l : List Nat) (x : Nat) : List Nat :=
  if x ∈ l then l else l ++ [x]

/-- Insertion into the `UnorderedSetMapper<ManagedBuffer>` of spectator-claim
keys. -/
def bufSetInsert (l : List (List Nat)) (x : List Nat) : List (List Nat) :=
  if x ∈ l then l else l ++ [x]

/-- Write-back of a `user_stats(user).set(&stats)` storage update. -/
def set_user_stats (s : State) (user : Address) (st : UserStats) : State :=
  { s with user_stats := fun u => if u = user then some st else s.user_stats u }

/-- Embedding of `get_or_create_user_stats` from `helpers.rs` (lines
143-163).  The default record mirrors the zeroed literal in the source; the
default TELO rating is 1500, the start value `models.rs` documents for
`telo_rating` (the literal in `helpers.rs` predates that field). -/
def get_or_create_user_stats (s : State) (now : Nat) (user : Address) : UserStats :=
  match s.user_stats user with
  | none =>
    { games_played := 0, wins := 0, losses := 0, win_rate := 0,
      tokens_won := 0, tokens_spent := 0, tournaments_created := 0,
      tournaments_won := 0, current_streak := 0, best_streak := 0,
      last_activity := 0, member_since := now, telo_rating := 1500 }
  | some st => st

/-- Embedding of `update_user_stats` from `helpers.rs` (lines 165-185):
read-or-create, initialise `member_since` if zero, apply the closure,
recompute `win_rate` in basis points (`wins as u64 * 10000 / games_played`,
then cast back to `u32`), and store. -/
def update_user_stats (s : State) (now : Nat) (user : Address)
    (update_fn : UserStats → UserStats) : State :=
  let st0 := get_or_create_user_stats s now user
  let st1 := if st0.member_since = 0 then { st0 with member_since := now } else st0
  let st2 := update_fn st1
  let st3 := if 0 < st2.games_played then
      { st2 with win_rate := st2.wins * 10000 / st2.games_played % U32MOD }
    else st2
  set_user_stats s user st3

/-- Embedding of `update_user_tournament_won` from `helpers.rs` (lines
111-131).  Note: its caller in `distribute_player_prizes` passes
`tournament.game_id` for the `tournament_id` parameter. -/
def update_user_tournament_won (s : State) (now : Nat) (user : Address)
    (tournament_id : Nat) (prize_amount : Nat) : State :=
  let s1 := { s with user_tournaments_won := fun u =>
    if u = user then natSetInsert (s.user_tournaments_won u) tournament_id
    else s.user_tournaments_won u }
  update_user_stats s1 now user (fun stats =>
    let stats := { stats with tournaments_won := (stats.tournaments_won + 1) % U32MOD }
    let stats := { stats with wins := (stats.wins + 1) % U32MOD }
    let stats := { stats with tokens_won := stats.tokens_won + prize_amount }
    let stats := { stats with current_streak := (stats.current_streak + 1) % U32MOD }
    let stats := if stats.best_streak < stats.current_streak then
        { stats with best_streak := stats.current_streak }
      else stats
    { stats with last_activity := now })

/-- Embedding of `update_user_tournament_lost` from `helpers.rs` (lines
133-141). -/
def update_user_tournament_lost (s : State) (now : Nat) (user : Address)
    (entry_fee : Nat) : State :=
  update_user_stats s now user (fun stats =>
    let stats := { stats with losses := (stats.losses + 1) % U32MOD }
    let stats := { stats with tokens_spent := stats.tokens_spent + entry_fee }
    let stats := { stats with current_streak := 0 }
    { stats with last_activity := now })

/-- Winner loop of `distribute_player_prizes` (`helpers.rs` lines 72-82):
for each enumerated podium position, read the position's basis-point share
with `ManagedVec::get` (`none` models the out-of-range abort), compute
`prize = remaining_pool * percentage / 10_000`, and when positive send the
prize and record the win. -/
def pay_winners (now : Nat) (pcts : List Nat) (remaining_pool : Nat) (game_id : Nat) :
    State → Nat → List Address → Option State
  | s, _, [] => some s
  | s, position, winner :: rest =>
    match pcts.get? position with
    | none => none
    | some percentage =>
      let prize_amount := remaining_pool * percentage / 10000
      let s1 := if 0 < prize_amount then
          update_user_tournament_won
            { s with payouts := s.payouts ++ [(winner, prize_amount)] }
            now winner game_id prize_amount
        else s
      pay_winners now pcts remaining_pool game_id s1 (position + 1) rest

/-- Loser loop of `distribute_player_prizes` (`helpers.rs` lines 85-98):
every participant not present in the final podium is recorded as a loss. -/
def process_losers (now : Nat) (entry_fee : Nat) (final_podium : List Address) :
    State → List Address → State
  | s, [] => s
  | s, participant :: rest =>
    let s1 := if participant ∈ final_podium then s
      else update_user_tournament_lost s now participant entry_fee
    process_losers now entry_fee final_podium s1 rest

/-- Embedding of `distribute_player_prizes` from `helpers.rs` (lines 53-99).
The pool is `self.tournament_fee().get()` — the globally stored fee — times
the roster size; the house fee is accumulated when positive; winners are
paid by podium position; losers are charged `tournament.entry_fee` in their
stats. -/
def distribute_player_prizes (s : State) (now : Nat) (tournament : Tournament)
    (game_config : GameConfig) : Option State :=
  let num_participants := tournament.participants.length
  let total_pool := s.tournament_fee * num_participants
  let house_fee := total_pool * game_config.house_fee_percentage / 10000
  let remaining_pool := total_pool - house_fee
  let s1 := if 0 < house_fee then
      { s with accumulated_house_fees := s.accumulated_house_fees + house_fee }
    else s
  match pay_winners now game_config.prize_distribution_percentages remaining_pool
      tournament.game_id s1 0 tournament.final_podium with
  | none => none
  | some s2 => some (process_losers now tournament.entry_fee
      tournament.final_podium s2 tournament.participants)

/-- Embedding of the endpoint `submit_results` from
`tournament_logic/results_management.rs` (lines 10-79).  `sig_ok` is the
oracle for the external `verify_ed25519` primitive, which aborts the call
when verification fails. -/
def submit_results (s : State) (now : Nat) (sig_ok : Bool) (tournament_index : Nat)
    (winner_podium : List Address) : Except String State :=
  match tournamentAt s tournament_index with
  | none => Except.error "Tournament does not exist"
  | some tournament =>
    match gameAt s tournament.game_id with
    | none => Except.error "Game not registered"
    | some game_config =>
      if tournament.status = TournamentStatus.Active then
        if sig_ok then
          if winner_podium.length = game_config.podium_size then
            if (∀ winner ∈ winner_podium, winner ∈ tournament.participants) then
              let t1 := { tournament with
                status := TournamentStatus.ProcessingResults,
                final_podium := winner_podium }
              match distribute_player_prizes s now t1 game_config with
              | none => Except.error "storage decode error: prize index out of range"
              | some s2 =>
                let t2 := { t1 with status := TournamentStatus.Completed }
                Except.ok { s2 with
                  active_tournaments := s2.active_tournaments.set (tournament_index - 1) t2,
                  total_tournaments_completed :=
                    (s2.total_tournaments_completed + 1) % U64MOD }
            else Except.error "Winner not found in participants"
          else Except.error "Winner podium size mismatch"
        else Except.error "signature verification failed"
      else Except.error "UNIQUE_ERROR_MESSAGE_FOR_DEBUGGING_12345"

/-- Embedding of the endpoint `create_tournament` from
`tournament_logic/tournament_management.rs` (lines 11-91).  `payment` is the
EGLD value of the call, `now` the block timestamp. -/
def create_tournament (s : State) (caller : Address) (payment now : Nat)
    (game_index max_players min_players : Nat) (entry_fee : Nat) (duration : Nat)
    (name : List Nat) : Except String State :=
  if 0 < game_index ∧ game_index ≤ s.registered_games.length then
    if 2 ≤ max_players ∧ max_players ≤ 8 then
      if 2 ≤ min_players ∧ min_players ≤ max_players then
        if 3600 ≤ duration ∧ duration ≤ 2592000 then
          if 0 < name.length ∧ name.length ≤ 100 then
            if payment = entry_fee then
              let tournament : Tournament :=
                { game_id := game_index, status := TournamentStatus.Joining,
                  participants := [caller], final_podium := [], creator := caller,
                  max_players := max_players, min_players := min_players,
                  entry_fee := entry_fee, duration := duration, name := name,
                  created_at := now }
              let s1 := { s with active_tournaments := s.active_tournaments ++ [tournament] }
              let tournament_index := s1.active_tournaments.length
              let s2 := { s1 with user_tournaments_created := fun u =>
                if u = caller then natSetInsert (s1.user_tournaments_created u) tournament_index
                else s1.user_tournaments_created u }
              let s3 := update_user_stats s2 now caller (fun stats =>
                let stats := { stats with
                  tournaments_created := (stats.tournaments_created + 1) % U32MOD }
                { stats with last_activity := now })
              Except.ok { s3 with
                total_tournaments_created := (s3.total_tournaments_created + 1) % U64MOD }
            else Except.error "Incorrect payment: must send exactly the tournament entry fee"
          else Except.error "Name must be between 1 and 100 characters"
        else Except.error "Duration must be between 1 hour and 30 days"
      else Except.error "Min players must be between 2 and max_players"
    else Except.error "Max players must be between 2 and 8"
  else Except.error "Game not registered"

/-- Embedding of the endpoint `join_tournament` from
`tournament_logic/tournament_management.rs` (lines 93-165).  The status
`match` admits only `Joining` and `ReadyToStart` and checks the registration
deadline inside that arm (`sc_panic!` otherwise); the remaining checks and
the two storage writes follow the source order.  The `u64` deadline sum
`created_at + duration` wraps at `2^64`. -/
def join_tournament (s : State) (caller : Address) (payment now : Nat)
    (tournament_index : Nat) : Except String State :=
  match tournamentAt s tournament_index with
  | none => Except.error "Tournament does not exist"
  | some tournament =>
    if tournament.status = TournamentStatus.Joining
        ∨ tournament.status = TournamentStatus.ReadyToStart then
      if now < (tournament.created_at + tournament.duration) % U64MOD then
        if caller ∉ tournament.participants then
          if tournament.participants.length < tournament.max_players then
            if payment = tournament.entry_fee then
              let t1 := { tournament with participants := tournament.participants ++ [caller] }
              let s1 := { s with
                active_tournaments := s.active_tournaments.set (tournament_index - 1) t1 }
              let s2 := { s1 with user_tournaments_joined := fun u =>
                if u = caller then natSetInsert (s1.user_tournaments_joined u) tournament_index
                else s1.user_tournaments_joined u }
              let s3 := update_user_stats s2 now caller (fun stats =>
                { stats with last_activity := now })
              if tournament.min_players ≤ t1.participants.length then
                let t2 := { t1 with status := TournamentStatus.ReadyToStart }
                Except.ok { s3 with
                  active_tournaments := s3.active_tournaments.set (tournament_index - 1) t2 }
              else Except.ok s3
            else Except.error "Incorrect payment: must send exactly the tournament entry fee"
          else Except.error "Tournament is full"
        else Except.error "Player already joined"
      else Except.error "Tournament registration period has ended"
    else Except.error "Cannot join tournament in current status"

/-- Big-endian 8-byte encoding of a `u64` (`to_be_bytes`). -/
def beBytes8 (n : Nat) : List Nat :=
  [n / 72057594037927936 % 256, n / 281474976710656 % 256,
   n / 1099511627776 % 256, n / 4294967296 % 256,
   n / 16777216 % 256, n / 65536 % 256, n / 256 % 256, n % 256]

/-- Embedding of `get_claim_key` from `helpers.rs` (lines 101-108): the
8-byte big-endian tournament id, an ASCII underscore, then the caller's raw
address bytes. -/
def get_claim_key (tournament_id : Nat) (caller : Address) : List Nat :=
  beBytes8 tournament_id ++ [95] ++ caller

/-- Position pool of the spectator payout
(`tournament_logic/spectator_betting.rs` line 120):
`position_pool = remaining_pool * position_percentage / 10_000`. -/
def spectator_position_pool (remaining_pool position_percentage : Nat) : Nat :=
  remaining_pool * position_percentage / 10000

/-- Proportional share of one bettor in a position pool
(`tournament_logic/spectator_betting.rs` line 123):
`caller_share = position_pool * caller_bet_amount / total_bet_on_winner`. -/
def spectator_share (position_pool caller_bet_amount total_bet_on_winner : Nat) : Nat :=
  position_pool * caller_bet_amount / total_bet_on_winner

/-- Podium loop of `claim_spectator_winnings`
(`tournament_logic/spectator_betting.rs` lines 101-126): for each enumerated
podium position, sum all wagers on that winner and the caller's wagers on
that winner; when both are positive, read the position's basis-point share
with `ManagedVec::get` (`none` models the out-of-range abort) and add the
caller's proportional share of the position pool. -/
def caller_winnings_loop (s : State) (caller : Address) (tournament_id : Nat)
    (pcts : List Nat) (remaining_pool : Nat) :
    Nat → List Address → Option Nat
  | _, [] => some 0
  | position, winner :: rest =>
    let bets := s.spectator_bets tournament_id winner
    let total_bet_on_winner := (bets.map (fun b => b.amount)).sum
    let caller_bet_amount :=
      ((bets.filter (fun b => b.bettor_address = caller)).map (fun b => b.amount)).sum
    if 0 < caller_bet_amount ∧ 0 < total_bet_on_winner then
      match pcts.get? position with
      | none => none
      | some position_percentage =>
        match caller_winnings_loop s caller tournament_id pcts remaining_pool
            (position + 1) rest with
        | none => none
        | some rest_winnings =>
          some (spectator_share (spectator_position_pool remaining_pool position_percentage)
                  caller_bet_amount total_bet_on_winner + rest_winnings)
    else
      caller_winnings_loop s caller tournament_id pcts remaining_pool (position + 1) rest

/-- Embedding of the endpoint `claim_spectator_winnings` from
`tournament_logic/spectator_betting.rs` (lines 61-135). -/
def claim_spectator_winnings (s : State) (caller : Address) (tournament_index : Nat) :
    Except String State :=
  match tournamentAt s tournament_index with
  | none => Except.error "Tournament does not exist"
  | some tournament =>
    match gameAt s tournament.game_id with
    | none => Except.error "Game config does not exist"
    | some game_config =>
      if tournament.status = TournamentStatus.Completed then
        if get_claim_key tournament_index caller ∉ s.spectator_claims then
          if 0 < s.spectator_pool_total tournament_index then
            let total_spectator_pool := s.spectator_pool_total tournament_index
            let house_fee := total_spectator_pool * game_config.house_fee_percentage / 10000
            let remaining_pool := total_spectator_pool - house_fee
            match caller_winnings_loop s caller tournament_index
                game_config.prize_distribution_percentages remaining_pool
                0 tournament.final_podium with
            | none => Except.error "storage decode error: prize index out of range"
            | some caller_winnings =>
              if 0 < caller_winnings then
                Except.ok { s with
                  spectator_claims :=
                    bufSetInsert s.spectator_claims (get_claim_key tournament_index caller),
                  payouts := s.payouts ++ [(caller, caller_winnings)] }
              else Except.error "No winnings to claim"
          else Except.error "No spectator pool"
        else Except.error "Already claimed winnings"
      else Except.error "Tournament not completed yet"

/-- Winner-update loop of `update_tournament_ratings`
(`tournament_logic/ranking_system.rs` lines 127-156): position-weighted gain
with a floor of 2, applied only when the winner already has a stats
record. -/
def update_winner_ratings (avg_loser_rating : Nat) :
    State → Nat → List Address → State
  | s, _, [] => s
  | s, position, winner :: rest =>
    let current_rating := match s.user_stats winner with
      | none => 1500
      | some st => st.telo_rating
    let points_gained := calculate_telo_change current_rating avg_loser_rating
    let position_multiplier := if position = 0 then 100
      else if position = 1 then 75
      else if position = 2 then 50
      else 25
    let adjusted_points := points_gained * position_multiplier / 100
    let adjusted_points := if adjusted_points < 2 then 2 else adjusted_points
    let s1 := match s.user_stats winner with
      | none => s
      | some stats =>
        set_user_stats s winner
          { stats with telo_rating := (stats.telo_rating + adjusted_points) % U32MOD }
    update_winner_ratings avg_loser_rating s1 (position + 1) rest

/-- Loser-update loop of `update_tournament_ratings`
(`tournament_logic/ranking_system.rs` lines 177-198): subtract the change,
floored at a rating of 100, applied only when the loser already has a stats
record. -/
def update_loser_ratings (avg_winner_rating : Nat) :
    State → List Address → State
  | s, [] => s
  | s, loser :: rest =>
    let current_rating := match s.user_stats loser with
      | none => 1500
      | some st => st.telo_rating
    let points_lost := calculate_telo_change avg_winner_rating current_rating
    let s1 := match s.user_stats loser with
      | none => s
      | some stats =>
        let new_rating := if points_lost + 100 < stats.telo_rating then
            stats.telo_rating - points_lost
          else 100
        set_user_stats s loser { stats with telo_rating := new_rating }
    update_loser_ratings avg_winner_rating s1 rest

/-- Stored-or-default TELO rating of an identity
(`tournament_logic/ranking_system.rs`, the repeated
`if user_stats.is_empty() then 1500 else user_stats.get().telo_rating`). -/
def telo_rating_or_default (s : State) (a : Address) : Nat :=
  match s.user_stats a with
  | none => 1500
  | some st => st.telo_rating

/-- Embedding of `update_tournament_ratings` from
`tournament_logic/ranking_system.rs` (lines 78-199).  The u32 rating totals
wrap at `2^32`.  Note that no endpoint of the contract invokes this
function: `submit_results` never calls it and `tournament_hub.rs` does not
even declare the `ranking_system` module. -/
def update_tournament_ratings (s : State) (participants winners : List Address) : State :=
  if winners.isEmpty then s
  else
    let losers := participants.filter (fun p => p ∉ winners)
    if losers.length = 0 then s
    else
      let total_loser_rating :=
        losers.foldl (fun acc l => (acc + telo_rating_or_default s l) % U32MOD) 0
      let avg_loser_rating := if 0 < losers.length then
          total_loser_rating / losers.length
        else 1500
      let s1 := update_winner_ratings avg_loser_rating s 0 winners
      let total_winner_rating :=
        winners.foldl (fun acc w => (acc + telo_rating_or_default s1 w) % U32MOD) 0
      let avg_winner_rating := if 0 < winners.length then
          total_winner_rating / winners.length
        else 1500
      update_loser_ratings avg_winner_rating s1 losers

/-- Expected per-position prize payments of the winner loop, as the claim
describes them: position `i` (0-based) receives
`floor(remaining_pool * schedule i / 10000)` and appears in the payment list
exactly when that amount is positive; the rounding residue is not
redistributed. -/
def prize_list (remaining_pool : Nat) (pcts : List Nat) :
    Nat → List Address → List (Address × Nat)
  | _, [] => []
  | position, winner :: rest =>
    let prize_amount := remaining_pool * pcts.getD position 0 / 10000
    (if 0 < prize_amount then [(winner, prize_amount)] else []) ++
      prize_list remaining_pool pcts (position + 1) rest

/-- Completely empty contract storage, as right after `init`. -/
def emptyState : State :=
  { registered_games := [], active_tournaments := [],
    spectator_bets := fun _ _ => [], spectator_pool_total := fun _ => 0,
    spectator_claims := [], house_fee_percentage := 0,
    accumulated_house_fees := 0, tournament_fee := 0,
    user_stats := fun _ => none, user_tournaments_created := fun _ => [],
    user_tournaments_joined := fun _ => [], user_tournaments_won := fun _ => [],
    total_tournaments_created := 0, total_tournaments_completed := 0,
    payouts := [] }

/-- Game config of the specification's scenario A: podium of 3, schedule
`[5000, 3000, 2000]`, house fee 0. -/
def cfgScenario : GameConfig :=
  { signing_server_address := [0], podium_size := 3,
    prize_distribution_percentages := [5000, 3000, 2000],
    house_fee_percentage := 0, allow_late_join := false }

/-- A one-position game config: podium of 1, schedule `[10000]`, house
fee 0. -/
def cfgOne : GameConfig :=
  { signing_server_address := [0], podium_size := 1,
    prize_distribution_percentages := [10000],
    house_fee_percentage := 0, allow_late_join := false }

/-- Scenario-A tournament: 4 participants, entry fee 100, podium of 3
already recorded. -/
def tScenario : Tournament :=
  { game_id := 1, status := TournamentStatus.ProcessingResults,
    participants := [[1], [2], [3], [4]], final_podium := [[1], [2], [3]],
    creator := [1], max_players := 4, min_players := 2, entry_fee := 100,
    duration := 3600, name := [65], created_at := 0 }

/-- Scenario-A storage: the global tournament fee matches the entry fee. -/
def sScenario : State := { emptyState with tournament_fee := 100 }

/-- Storage whose global tournament fee (50) differs from the scenario
tournament's stored entry fee (100). -/
def sScenarioLow : State := { emptyState with tournament_fee := 50 }

/-- Post-state of the scenario-A distribution. -/
def scenarioAState : State :=
  match distribute_player_prizes sScenario 0 tScenario cfgScenario with
  | some s => s
  | none => emptyState

/-- Fresh user-stats record whose `member_since` is nonzero and whose
rating is the default 1500. -/
def stats1500 : UserStats :=
  { games_played := 1, wins := 0, losses := 0, win_rate := 0,
    tokens_won := 0, tokens_spent := 0, tournaments_created := 0,
    tournaments_won := 0, current_streak := 0, best_streak := 0,
    last_activity := 0, member_since := 5, telo_rating := 1500 }

/-- An Active two-player tournament for game 1 (entry fee 100). -/
def tActive : Tournament :=
  { game_id := 1, status := TournamentStatus.Active,
    participants := [[1], [2]], final_podium := [],
    creator := [1], max_players := 2, min_players := 2, entry_fee := 100,
    duration := 3600, name := [65], created_at := 0 }

/-- Storage holding the Active tournament `tActive` for game `cfgOne`, with
stats records for both participants. -/
def sActive : State :=
  { emptyState with
    registered_games := [cfgOne], active_tournaments := [tActive],
    tournament_fee := 100,
    user_stats := fun a => if a = [1] then some stats1500
      else if a = [2] then some stats1500 else none }

/-- Post-state of a successful result submission on `sActive`. -/
def sActiveRes : State :=
  match submit_results sActive 0 true 1 [[1]] with
  | Except.ok v => v
  | Except.error _ => sActive

/-- A Joining one-participant tournament created at time 0 with duration
3600, room for more players, entry fee 100. -/
def tJoin : Tournament :=
  { game_id := 1, status := TournamentStatus.Joining,
    participants := [[1]], final_podium := [],
    creator := [1], max_players := 4, min_players := 2, entry_fee := 100,
    duration := 3600, name := [65], created_at := 0 }

/-- Storage holding the Joining tournament `tJoin` for game `cfgOne`. -/
def sJoin : State :=
  { emptyState with registered_games := [cfgOne], active_tournaments := [tJoin] }

/-- Post-state of a successful join of player `[2]` on `sJoin` at time 10. -/
def sJoinRes : State :=
  match join_tournament sJoin [2] 100 10 1 with
  | Except.ok v => v
  | Except.error _ => sJoin

/-- A Completed tournament with a recorded one-place podium. -/
def tDone : Tournament :=
  { tActive with status := TournamentStatus.Completed, final_podium := [[1]] }

/-- Storage with the Completed tournament `tDone`, one spectator bet of 50
by `[7]` on the winner `[1]`, and the matching pool total. -/
def sBet : State :=
  { emptyState with
    registered_games := [cfgOne], active_tournaments := [tDone],
    spectator_bets := fun tid p =>
      if tid = 1 ∧ p = [1] then [{ bettor_address := [7], amount := 50 }] else [],
    spectator_pool_total := fun tid => if tid = 1 then 50 else 0 }

/-- Post-state of the first successful spectator claim by `[7]` on `sBet`. -/
def sBetRes : State :=
  match claim_spectator_winnings sBet [7] 1 with
  | Except.ok v => v
  | Except.error _ => sBet

/-- Post-state of registering the game `cfgOne` on the empty storage (whose
global house fee is 0). -/
def regState : State :=
  match register_game emptyState [0] 1 [10000] false with
  | Except.ok v => v
  | Except.error _ => emptyState

/-- `regState` after raising the global house fee to 9999. -/
def regStateFee : State := { regState with house_fee_percentage := 9999 }

/-- Storage with one registered game and no tournaments. -/
def sGame : State := { emptyState with registered_games := [cfgOne] }

/-- Post-state of a successful tournament creation on `sGame`. -/
def sGameRes : State :=
  match create_tournament sGame [1] 100 0 1 4 2 100 3600 [65] with
  | Except.ok v => v
  | Except.error _ => sGame

lemma wrapI32_eq_self {x : Int} (h1 : -2147483648 ≤ x) (h2 : x < 2147483648) :
    wrapI32 x = x := by
  unfold wrapI32
  have h3 : (0 : Int) ≤ x + 2147483648 := by omega
  have h4 : x + 2147483648 < 4294967296 := by omega
  rw [Int.emod_eq_of_lt h3 h4]
  omega

lemma calculate_telo_change_eq_claimed (w l : Nat)
    (hw : w < 2147483648) (hl : l < 2147483648) :
    calculate_telo_change w l = claimed_telo_change w l := by
  have hdiff : wrapI32 (toI32 w - toI32 l) = (w : Int) - (l : Int) := by
    unfold toI32
    rw [if_pos hw, if_pos hl]
    apply wrapI32_eq_self <;> omega
  simp only [calculate_telo_change, claimed_telo_change]
  rw [hdiff]
  split_ifs <;> norm_num [MIN_POINTS, MAX_POINTS]

lemma calculate_telo_change_le (w l : Nat) : calculate_telo_change w l ≤ 20 := by
  simp only [calculate_telo_change]
  split_ifs <;> norm_num [MIN_POINTS, MAX_POINTS]

lemma two_le_calculate_telo_change (w l : Nat) : 2 ≤ calculate_telo_change w l := by
  simp only [calculate_telo_change]
  split_ifs <;> norm_num [MIN_POINTS, MAX_POINTS]

/-- claim7 (counterexample): the claim quantifies over all ratings, but at
`winner_rating = 2^31`, `loser_rating = 0` the Rust `as i32` cast (defined,
wrapping behaviour in every build profile) reinterprets the winner rating as
`-2^31`, so `calculate_telo_change` returns `20`, while the claimed stepped
function of `rating_diff = 2^31 - 0 ≥ 400` returns `2`. -/
theorem claim7_counterexample :
    calculate_telo_change 2147483648 0 = 20 ∧ claimed_telo_change 2147483648 0 = 2 := by
  constructor <;> decide

/-- claim7 (amended): for ratings below `2^31` (the `i32`-representable
range, which contains every rating the contract can ever store, starting
from 1500 with small bounded changes), `calculate_telo_change` equals the
claimed stepped function of `winner_rating - loser_rating`, and its result
always lies in `[2, 20]`. -/
theorem claim7_amended (w l : Nat) (hw : w < 2147483648) (hl : l < 2147483648) :
    calculate_telo_change w l = claimed_telo_change w l
      ∧ 2 ≤ calculate_telo_change w l ∧ calculate_telo_change w l ≤ 20 :=
  ⟨calculate_telo_change_eq_claimed w l hw hl,
   two_le_calculate_telo_change w l, calculate_telo_change_le w l⟩

/-- claim7 (witness): the amended theorem applied at the concrete ratings
`(1500, 1400)` (difference `100`, stepped value `8`). -/
theorem claim7_witness :
    calculate_telo_change 1500 1400 = claimed_telo_change 1500 1400
      ∧ 2 ≤ calculate_telo_change 1500 1400 ∧ calculate_telo_change 1500 1400 ≤ 20 :=
  claim7_amended 1500 1400 (by decide) (by decide)

/-- claim8 (counterexample): the schedule `[4294967295, 10001]` does not sum
to 10,000, yet `register_game` accepts it: the `u32` accumulation
`total_percentage += percentage` wraps at `2^32`
(`4294967295 + 10001 = 2^32 + 10000`), so in the deployed release build the
check passes and registration succeeds. -/
theorem claim8_counterexample :
    (∃ s1, register_game emptyState [0] 2 [4294967295, 10001] false = Except.ok s1)
      ∧ [4294967295, 10001].sum ≠ 10000 :=
  ⟨⟨_, rfl⟩, by decide⟩

/-- claim8 (amended): an owner call to `register_game` succeeds — appending
the new game config, which therefore receives the next 1-based index — if
and only if the schedule length equals the podium size and the schedule's
entries sum to 10,000 under the code's wrapping u32 accumulation.  (The
explicit `podium_size > 0` check adds nothing: an empty schedule sums to 0,
not 10,000.) -/
theorem claim8_amended (s : State) (signing : Address) (podium_size : Nat)
    (pcts : List Nat) (late : Bool) :
    ((∃ s1, register_game s signing podium_size pcts late = Except.ok s1) ↔
      pcts.length = podium_size ∧ sum_percentages_u32 pcts = 10000)
    ∧ (∀ s1, register_game s signing podium_size pcts late = Except.ok s1 →
        s1.registered_games = s.registered_games ++
          [{ signing_server_address := signing, podium_size := podium_size,
             prize_distribution_percentages := pcts,
             house_fee_percentage := s.house_fee_percentage,
             allow_late_join := late }]) := by
  constructor
  · constructor
    · rintro ⟨s1, h⟩
      unfold register_game at h
      split_ifs at h with h1 h2 h3
      · exact ⟨h2, h3⟩
    · rintro ⟨hlen, hsum⟩
      have hps : 0 < podium_size := by
        rcases Nat.eq_zero_or_pos podium_size with h0 | h0
        · exfalso
          rw [h0] at hlen
          rw [List.length_eq_zero.mp hlen] at hsum
          exact absurd hsum (by decide)
        · exact h0
      unfold register_game
      rw [if_pos hps, if_pos hlen, if_pos hsum]
      exact ⟨_, rfl⟩
  · intro s1 h
    unfold register_game at h
    split_ifs at h with h1 h2 h3
    injection h with h4
    rw [← h4]

@[simp] lemma update_won_payouts (s : State) (now : Nat) (u : Address) (tid amt : Nat) :
    (update_user_tournament_won s now u tid amt).payouts = s.payouts := rfl

@[simp] lemma update_won_accumulated (s : State) (now : Nat) (u : Address) (tid amt : Nat) :
    (update_user_tournament_won s now u tid amt).accumulated_house_fees =
      s.accumulated_house_fees := rfl

@[simp] lemma update_won_registered (s : State) (now : Nat) (u : Address) (tid amt : Nat) :
    (update_user_tournament_won s now u tid amt).registered_games = s.registered_games := rfl

@[simp] lemma update_won_active (s : State) (now : Nat) (u : Address) (tid amt : Nat) :
    (update_user_tournament_won s now u tid amt).active_tournaments =
      s.active_tournaments := rfl

@[simp] lemma update_won_completed (s : State) (now : Nat) (u : Address) (tid amt : Nat) :
    (update_user_tournament_won s now u tid amt).total_tournaments_completed =
      s.total_tournaments_completed := rfl

@[simp] lemma update_lost_payouts (s : State) (now : Nat) (u : Address) (fee : Nat) :
    (update_user_tournament_lost s now u fee).payouts = s.payouts := rfl

@[simp] lemma update_lost_accumulated (s : State) (now : Nat) (u : Address) (fee : Nat) :
    (update_user_tournament_lost s now u fee).accumulated_house_fees =
      s.accumulated_house_fees := rfl

@[simp] lemma update_lost_registered (s : State) (now : Nat) (u : Address) (fee : Nat) :
    (update_user_tournament_lost s now u fee).registered_games = s.registered_games := rfl

@[simp] lemma update_lost_active (s : State) (now : Nat) (u : Address) (fee : Nat) :
    (update_user_tournament_lost s now u fee).active_tournaments =
      s.active_tournaments := rfl

@[simp] lemma update_lost_completed (s : State) (now : Nat) (u : Address) (fee : Nat) :
    (update_user_tournament_lost s now u fee).total_tournaments_completed =
      s.total_tournaments_completed := rfl

lemma pay_winners_effects (now : Nat) (pcts : List Nat) (rem gid : Nat) :
    ∀ (podium : List Address) (pos : Nat) (s s2 : State),
      pay_winners now pcts rem gid s pos podium = some s2 →
      s2.payouts = s.payouts ++ prize_list rem pcts pos podium
      ∧ s2.accumulated_house_fees = s.accumulated_house_fees
      ∧ s2.registered_games = s.registered_games
      ∧ s2.active_tournaments = s.active_tournaments
      ∧ s2.total_tournaments_completed = s.total_tournaments_completed
  | [], pos, s, s2 => by
    intro h
    simp only [pay_winners] at h
    injection h with h1
    subst h1
    simp [prize_list]
  | winner :: rest, pos, s, s2 => by
    intro h
    simp only [pay_winners] at h
    cases hg : pcts.get? pos with
    | none => rw [hg] at h; exact absurd h (by simp)
    | some pct =>
      rw [hg] at h
      simp only [] at h
      have hgd : pcts[pos]?.getD 0 = pct := by
        rw [← List.get?_eq_getElem?, hg]
        rfl
      have hgd2 : pcts.getD pos 0 = pct := by
        rw [List.getD_eq_getElem?_getD, hgd]
      obtain ⟨p1, p2, p3, p4, p5⟩ := pay_winners_effects now pcts rem gid rest (pos + 1) _ s2 h
      by_cases hp : 0 < rem * pct / 10000
      · rw [if_pos hp] at p1 p2 p3 p4 p5
        refine ⟨?_, ?_, ?_, ?_, ?_⟩
        · rw [p1, update_won_payouts]
          simp [prize_list, hgd, hp, List.append_assoc]
        · rw [p2, update_won_accumulated]
        · rw [p3, update_won_registered]
        · rw [p4, update_won_active]
        · rw [p5, update_won_completed]
      · rw [if_neg hp] at p1 p2 p3 p4 p5
        refine ⟨?_, p2, p3, p4, p5⟩
        rw [p1]
        simp only [prize_list, hgd2]
        rw [if_neg hp]
        simp

lemma process_losers_effects (now fee : Nat) (podium : List Address) :
    ∀ (parts : List Address) (s : State),
      (process_losers now fee podium s parts).payouts = s.payouts
      ∧ (process_losers now fee podium s parts).accumulated_house_fees =
          s.accumulated_house_fees
      ∧ (process_losers now fee podium s parts).registered_games = s.registered_games
      ∧ (process_losers now fee podium s parts).active_tournaments = s.active_tournaments
      ∧ (process_losers now fee podium s parts).total_tournaments_completed =
          s.total_tournaments_completed
  | [], s => ⟨rfl, rfl, rfl, rfl, rfl⟩
  | p :: rest, s => by
    simp only [process_losers]
    by_cases hp : p ∈ podium
    · rw [if_pos hp]
      exact process_losers_effects now fee podium rest s
    · rw [if_neg hp]
      obtain ⟨q1, q2, q3, q4, q5⟩ :=
        process_losers_effects now fee podium rest (update_user_tournament_lost s now p fee)
      exact ⟨by rw [q1, update_lost_payouts], by rw [q2, update_lost_accumulated],
        by rw [q3, update_lost_registered], by rw [q4, update_lost_active],
        by rw [q5, update_lost_completed]⟩

lemma distribute_effects (s : State) (now : Nat) (t : Tournament) (cfg : GameConfig)
    (s3 : State) (h : distribute_player_prizes s now t cfg = some s3) :
    s3.payouts = s.payouts ++ prize_list
        (s.tournament_fee * t.participants.length -
          s.tournament_fee * t.participants.length * cfg.house_fee_percentage / 10000)
        cfg.prize_distribution_percentages 0 t.final_podium
    ∧ s3.accumulated_house_fees = s.accumulated_house_fees +
        s.tournament_fee * t.participants.length * cfg.house_fee_percentage / 10000
    ∧ s3.registered_games = s.registered_games
    ∧ s3.active_tournaments = s.active_tournaments
    ∧ s3.total_tournaments_completed = s.total_tournaments_completed := by
  simp only [distribute_player_prizes] at h
  cases hw : pay_winners now cfg.prize_distribution_percentages
      (s.tournament_fee * t.participants.length -
        s.tournament_fee * t.participants.length * cfg.house_fee_percentage / 10000)
      t.game_id
      (if 0 < s.tournament_fee * t.participants.length * cfg.house_fee_percentage / 10000
        then { s with accumulated_house_fees := s.accumulated_house_fees +
          s.tournament_fee * t.participants.length * cfg.house_fee_percentage / 10000 }
        else s)
      0 t.final_podium with
  | none => rw [hw] at h; exact absurd h (by simp)
  | some s2 =>
    rw [hw] at h
    injection h with h1
    obtain ⟨p1, p2, p3, p4, p5⟩ := pay_winners_effects _ _ _ _ _ _ _ _ hw
    obtain ⟨q1, q2, q3, q4, q5⟩ := process_losers_effects now t.entry_fee t.final_podium
      t.participants s2
    rw [← h1]
    by_cases hf : 0 < s.tournament_fee * t.participants.length * cfg.house_fee_percentage / 10000
    · rw [if_pos hf] at p1 p2 p3 p4 p5
      exact ⟨by rw [q1, p1], by rw [q2, p2], by rw [q3, p3], by rw [q4, p4], by rw [q5, p5]⟩
    · rw [if_neg hf] at p1 p2 p3 p4 p5
      have hf0 : s.tournament_fee * t.participants.length * cfg.house_fee_percentage / 10000 = 0 := by
        omega
      exact ⟨by rw [q1, p1], by rw [q2, p2, hf0, Nat.add_zero], by rw [q3, p3],
        by rw [q4, p4], by rw [q5, p5]⟩

/-- claim1 (counterexample): a tournament with stored `entry_fee = 100` and
4 participants (claimed pool `400`, claimed first prize `200`), distributed
while the global `tournament_fee` storage holds `50`: the code pays
`[100, 60, 40]`, i.e. it computes the pool from `self.tournament_fee().get()`
(`helpers.rs` line 59), not from the tournament's stored entry fee. -/
theorem claim1_counterexample :
    ((distribute_player_prizes sScenarioLow 0 tScenario cfgScenario).map State.payouts)
      = some [([1], 100), ([2], 60), ([3], 40)]
    ∧ tScenario.entry_fee * tScenario.participants.length = 400
    ∧ (100 : Nat) ≠ (400 - 400 * 0 / 10000) * 5000 / 10000 := by
  refine ⟨?_, by decide, by decide⟩
  rfl

/-- claim1 (amended): at distribution time the prize pool equals the
globally stored `tournament_fee` (not the tournament's own `entry_fee`)
multiplied by the number of participants in the final roster; the house fee
`floor(total_pool * house_fee_bp / 10000)` is added to the accumulated
house-fee total, and podium position `i` is paid
`prize_i = floor((total_pool - house_fee) * schedule_i / 10000)` exactly when
`prize_i > 0`, the rounding residue staying in the contract
(`prize_list` is that payment list). -/
theorem claim1_amended (s : State) (now : Nat) (t : Tournament) (cfg : GameConfig)
    (s3 : State) (h : distribute_player_prizes s now t cfg = some s3) :
    s3.accumulated_house_fees = s.accumulated_house_fees +
        s.tournament_fee * t.participants.length * cfg.house_fee_percentage / 10000
    ∧ s3.payouts = s.payouts ++ prize_list
        (s.tournament_fee * t.participants.length -
          s.tournament_fee * t.participants.length * cfg.house_fee_percentage / 10000)
        cfg.prize_distribution_percentages 0 t.final_podium :=
  ⟨(distribute_effects s now t cfg s3 h).2.1, (distribute_effects s now t cfg s3 h).1⟩

/-- Scenario A of the specification, run on the embedding: schedule
`[5000, 3000, 2000]`, house fee 0, fee 100, 4 participants, podium of 3 —
prizes `[200, 120, 80]` (holds because here the global `tournament_fee`
equals the entry fee of 100). -/
lemma distribute_scenario_a :
    ((distribute_player_prizes sScenario 0 tScenario cfgScenario).map State.payouts)
      = some [([1], 200), ([2], 120), ([3], 80)] := rfl

/-- claim1 (witness): the amended theorem applied to the concrete scenario-A
distribution. -/
theorem claim1_witness :
    scenarioAState.accumulated_house_fees = sScenario.accumulated_house_fees +
        sScenario.tournament_fee * tScenario.participants.length *
          cfgScenario.house_fee_percentage / 10000
    ∧ scenarioAState.payouts = sScenario.payouts ++ prize_list
        (sScenario.tournament_fee * tScenario.participants.length -
          sScenario.tournament_fee * tScenario.participants.length *
            cfgScenario.house_fee_percentage / 10000)
        cfgScenario.prize_distribution_percentages 0 tScenario.final_podium :=
  claim1_amended sScenario 0 tScenario cfgScenario scenarioAState rfl

/-- claim10: `set_house_fee_percentage` rewrites only the global
`house_fee_percentage` cell (every already-registered game config, and all
other storage, is untouched); `register_game` captures the global fee in
force at registration time into the new config; and
`distribute_player_prizes` charges the fee recorded in the game config it is
given, so a distribution for an existing game uses the fee captured at that
game's registration even after the global value changes. -/
theorem claim10 :
    (∀ (s : State) (fee : Nat), fee ≤ 10000 →
      set_house_fee_percentage s fee = Except.ok { s with house_fee_percentage := fee })
    ∧ (∀ (s : State) (signing : Address) (podium_size : Nat) (pcts : List Nat)
        (late : Bool) (s1 : State) (fee : Nat) (s2 : State),
        register_game s signing podium_size pcts late = Except.ok s1 →
        set_house_fee_percentage s1 fee = Except.ok s2 →
        s2.registered_games = s.registered_games ++
          [{ signing_server_address := signing, podium_size := podium_size,
             prize_distribution_percentages := pcts,
             house_fee_percentage := s.house_fee_percentage,
             allow_late_join := late }])
    ∧ (∀ (s : State) (now : Nat) (t : Tournament) (cfg : GameConfig) (s3 : State),
        distribute_player_prizes s now t cfg = some s3 →
        s3.accumulated_house_fees = s.accumulated_house_fees +
          s.tournament_fee * t.participants.length * cfg.house_fee_percentage / 10000) := by
  refine ⟨?_, ?_, ?_⟩
  · intro s fee hfee
    unfold set_house_fee_percentage
    rw [if_pos hfee]
  · intro s signing podium_size pcts late s1 fee s2 h1 h2
    have hreg : s1.registered_games = s.registered_games ++
        [{ signing_server_address := signing, podium_size := podium_size,
           prize_distribution_percentages := pcts,
           house_fee_percentage := s.house_fee_percentage,
           allow_late_join := late }] := by
      unfold register_game at h1
      split_ifs at h1 with g1 g2 g3
      injection h1 with h4
      rw [← h4]
    unfold set_house_fee_percentage at h2
    split_ifs at h2 with g4
    injection h2 with h5
    rw [← h5]
    exact hreg
  · intro s now t cfg s3 h
    exact (distribute_effects s now t cfg s3 h).2.1

/-- claim10 (witness): the theorem applied at concrete inputs — set the
global fee to 123 on the empty state; register a game while the global fee
is 0, then raise the fee to 9999 and observe the stored config still carries
fee 0; and run the scenario-A distribution whose config fee is 0. -/
theorem claim10_witness :
    set_house_fee_percentage emptyState 123 =
        Except.ok { emptyState with house_fee_percentage := 123 }
    ∧ regStateFee.registered_games = emptyState.registered_games ++
        [{ signing_server_address := [0], podium_size := 1,
           prize_distribution_percentages := [10000],
           house_fee_percentage := emptyState.house_fee_percentage,
           allow_late_join := false }]
    ∧ scenarioAState.accumulated_house_fees = sScenario.accumulated_house_fees +
        sScenario.tournament_fee * tScenario.participants.length *
          cfgScenario.house_fee_percentage / 10000 :=
  ⟨claim10.1 emptyState 123 (by decide),
   claim10.2.1 emptyState [0] 1 [10000] false regState 9999 regStateFee rfl rfl,
   claim10.2.2 sScenario 0 tScenario cfgScenario scenarioAState rfl⟩

@[simp] lemma update_stats_payouts (s : State) (now : Nat) (u : Address)
    (f : UserStats → UserStats) : (update_user_stats s now u f).payouts = s.payouts := rfl

@[simp] lemma update_stats_accumulated (s : State) (now : Nat) (u : Address)
    (f : UserStats → UserStats) :
    (update_user_stats s now u f).accumulated_house_fees = s.accumulated_house_fees := rfl

@[simp] lemma update_stats_registered (s : State) (now : Nat) (u : Address)
    (f : UserStats → UserStats) :
    (update_user_stats s now u f).registered_games = s.registered_games := rfl

@[simp] lemma update_stats_active (s : State) (now : Nat) (u : Address)
    (f : UserStats → UserStats) :
    (update_user_stats s now u f).active_tournaments = s.active_tournaments := rfl

@[simp] lemma update_stats_completed (s : State) (now : Nat) (u : Address)
    (f : UserStats → UserStats) :
    (update_user_stats s now u f).total_tournaments_completed =
      s.total_tournaments_completed := rfl

lemma join_ok_iff (s : State) (caller : Address) (payment now tid : Nat) :
    (∃ s1, join_tournament s caller payment now tid = Except.ok s1) ↔
      ∃ t, tournamentAt s tid = some t
        ∧ (t.status = TournamentStatus.Joining ∨ t.status = TournamentStatus.ReadyToStart)
        ∧ now < (t.created_at + t.duration) % U64MOD
        ∧ caller ∉ t.participants
        ∧ t.participants.length < t.max_players
        ∧ payment = t.entry_fee := by
  cases hT : tournamentAt s tid with
  | none =>
    simp only [join_tournament, hT]
    constructor
    · rintro ⟨s1, h⟩
      exact absurd h (by simp)
    · rintro ⟨t, ht, h2⟩
      exact absurd ht (by simp)
  | some t =>
    simp only [join_tournament, hT]
    constructor
    · rintro ⟨s1, h⟩
      split_ifs at h with h1 h2 h3 h4 h5 h6
      all_goals exact ⟨t, rfl, h1, h2, h3, h4, h5⟩
    · rintro ⟨t2, ht2, h1, h2, h3, h4, h5⟩
      injection ht2 with he
      subst he
      rw [if_pos h1, if_pos h2, if_pos h3, if_pos h4, if_pos h5]
      by_cases h6 : t.min_players ≤ (t.participants ++ [caller]).length
      · rw [if_pos h6]
        exact ⟨_, rfl⟩
      · rw [if_neg h6]
        exact ⟨_, rfl⟩

lemma join_ok_state (s : State) (caller : Address) (payment now tid : Nat)
    (t : Tournament) (s1 : State) (hT : tournamentAt s tid = some t)
    (h : join_tournament s caller payment now tid = Except.ok s1) :
    s1.active_tournaments = s.active_tournaments.set (tid - 1)
      { t with
        participants := t.participants ++ [caller],
        status := if t.min_players ≤ t.participants.length + 1
          then TournamentStatus.ReadyToStart else t.status } := by
  simp only [join_tournament, hT] at h
  split_ifs at h with h1 h2 h3 h4 h5 h6
  · injection h with he
    subst he
    have hlen : t.min_players ≤ t.participants.length + 1 := by
      simpa using h6
    rw [if_pos hlen]
    simp [List.set_set]
  · injection h with he
    subst he
    have hlen : ¬ t.min_players ≤ t.participants.length + 1 := by
      simpa using h6
    rw [if_neg hlen]
    simp

/-- claim3 (counterexample): on `sJoin` all five claimed conditions hold —
the tournament exists (for a registered game), its status is `Joining`, the
caller `[2]` has not joined, the roster (1 of 4) has room, and the payment
equals the stored entry fee — yet at block time 5000 (past
`created_at + duration = 3600`) the join is rejected, so the claimed
"if and only if" fails. -/
theorem claim3_counterexample :
    join_tournament sJoin [2] 100 5000 1 =
        Except.error "Tournament registration period has ended"
    ∧ tournamentAt sJoin 1 = some tJoin
    ∧ gameAt sJoin tJoin.game_id = some cfgOne
    ∧ tJoin.status = TournamentStatus.Joining
    ∧ [2] ∉ tJoin.participants
    ∧ tJoin.participants.length < tJoin.max_players
    ∧ (100 : Nat) = tJoin.entry_fee :=
  ⟨rfl, rfl, rfl, rfl, by decide, by decide, rfl⟩

/-- claim3 (amended): a join call succeeds if and only if the tournament
exists, its status is `Joining` or `ReadyToStart`, the current block
timestamp is still before `created_at + duration` (u64 sum), the caller is
not already a participant, the roster has fewer than `max_players` entries,
and the payment equals the stored entry fee; on success the caller is
appended to the participants, and the status becomes `ReadyToStart` exactly
when the new participant count reaches `min_players`. -/
theorem claim3_amended (s : State) (caller : Address) (payment now tid : Nat) :
    ((∃ s1, join_tournament s caller payment now tid = Except.ok s1) ↔
      ∃ t, tournamentAt s tid = some t
        ∧ (t.status = TournamentStatus.Joining ∨ t.status = TournamentStatus.ReadyToStart)
        ∧ now < (t.created_at + t.duration) % U64MOD
        ∧ caller ∉ t.participants
        ∧ t.participants.length < t.max_players
        ∧ payment = t.entry_fee)
    ∧ (∀ (t : Tournament) (s1 : State), tournamentAt s tid = some t →
        join_tournament s caller payment now tid = Except.ok s1 →
        s1.active_tournaments = s.active_tournaments.set (tid - 1)
          { t with
            participants := t.participants ++ [caller],
            status := if t.min_players ≤ t.participants.length + 1
              then TournamentStatus.ReadyToStart else t.status }) :=
  ⟨join_ok_iff s caller payment now tid,
   fun t s1 hT h => join_ok_state s caller payment now tid t s1 hT h⟩

lemma create_ok_duration (s : State) (caller : Address)
    (payment now game_index max_players min_players entry_fee duration : Nat)
    (name : List Nat) (s1 : State)
    (h : create_tournament s caller payment now game_index max_players min_players
      entry_fee duration name = Except.ok s1) :
    3600 ≤ duration ∧ duration ≤ 2592000 := by
  unfold create_tournament at h
  split_ifs at h with g1 g2 g3 g4 g5 g6
  exact g4

lemma join_deadline_fails (s : State) (caller : Address) (payment now tid : Nat)
    (t : Tournament) (hT : tournamentAt s tid = some t)
    (hd : t.created_at + t.duration ≤ now) :
    (join_tournament s caller payment now tid).isOk = false := by
  simp only [join_tournament, hT]
  split_ifs with h1 h2 h3 h4 h5 h6
  all_goals try rfl
  all_goals
    exfalso
    have hm := Nat.mod_le (t.created_at + t.duration) U64MOD
    omega

/-- claim9: `create_tournament` succeeds only when its `duration` argument
lies between 3600 and 2,592,000 seconds, and a join always fails once the
block timestamp has reached `created_at + duration`, whatever the status,
roster, or payment. -/
theorem claim9 :
    (∀ (s : State) (caller : Address)
      (payment now game_index max_players min_players entry_fee duration : Nat)
      (name : List Nat) (s1 : State),
      create_tournament s caller payment now game_index max_players min_players
        entry_fee duration name = Except.ok s1 →
      3600 ≤ duration ∧ duration ≤ 2592000)
    ∧ (∀ (s : State) (caller : Address) (payment now tid : Nat) (t : Tournament),
        tournamentAt s tid = some t → t.created_at + t.duration ≤ now →
        (join_tournament s caller payment now tid).isOk = false) :=
  ⟨fun s c p n gi mx mn fee dur name s1 h =>
    create_ok_duration s c p n gi mx mn fee dur name s1 h,
   fun s c p n tid t hT hd => join_deadline_fails s c p n tid t hT hd⟩

/-- claim9 (witness): a concrete creation with duration 3600 succeeds (so
3600 is in range), and the join of `[2]` on `sJoin` at time 5000 — past the
3600-second deadline — fails. -/
theorem claim9_witness :
    (3600 ≤ 3600 ∧ 3600 ≤ 2592000)
    ∧ (join_tournament sJoin [2] 100 5000 1).isOk = false :=
  ⟨claim9.1 sGame [1] 100 0 1 4 2 100 3600 [65] sGameRes rfl,
   claim9.2 sJoin [2] 100 5000 1 tJoin rfl (by decide)⟩

lemma tournamentAt_some {s : State} {tid : Nat} {t : Tournament}
    (h : tournamentAt s tid = some t) :
    0 < tid ∧ tid - 1 < s.active_tournaments.length
      ∧ s.active_tournaments.get? (tid - 1) = some t := by
  unfold tournamentAt at h
  split_ifs at h with h1
  obtain ⟨hlt, _⟩ := List.get?_eq_some.mp h
  exact ⟨h1.1, hlt, h⟩

lemma submit_ok_spec (s : State) (now : Nat) (sig : Bool) (tid : Nat)
    (podium : List Address) (s4 : State)
    (h : submit_results s now sig tid podium = Except.ok s4) :
    ∃ t cfg s2, tournamentAt s tid = some t ∧ gameAt s t.game_id = some cfg
      ∧ t.status = TournamentStatus.Active
      ∧ sig = true
      ∧ podium.length = cfg.podium_size
      ∧ (∀ w ∈ podium, w ∈ t.participants)
      ∧ distribute_player_prizes s now
          { t with
            status := TournamentStatus.ProcessingResults,
            final_podium := podium } cfg = some s2
      ∧ s4 = { s2 with
          active_tournaments := s.active_tournaments.set (tid - 1)
            { t with
              status := TournamentStatus.Completed,
              final_podium := podium },
          total_tournaments_completed :=
            (s.total_tournaments_completed + 1) % U64MOD } := by
  simp only [submit_results] at h
  cases hT : tournamentAt s tid with
  | none =>
    simp only [hT] at h
    exact Except.noConfusion h
  | some t =>
    simp only [hT] at h
    cases hG : gameAt s t.game_id with
    | none =>
      simp only [hG] at h
      exact Except.noConfusion h
    | some cfg =>
      simp only [hG] at h
      split_ifs at h with h1 h2 h3 h4
      cases hD : distribute_player_prizes s now
          { t with
            status := TournamentStatus.ProcessingResults,
            final_podium := podium } cfg with
      | none =>
        simp only [hD] at h
        exact Except.noConfusion h
      | some s2 =>
        simp only [hD] at h
        injection h with h5
        obtain ⟨p1, p2, p3, p4, p5⟩ := distribute_effects s now _ cfg s2 hD
        refine ⟨t, cfg, s2, rfl, hG, h1, h2, h3, h4, hD, ?_⟩
        rw [← h5, p4, p5]

/-- claim2 (counterexample): a successful submit on `sActive` (both
participants have stats records with rating 1500) leaves the winner's TELO
rating at 1500, while the TELO ranking update over the participants and
podium would raise it to 1513 — the code never invokes the ranking update
(`submit_results` does not call `update_tournament_ratings`, and
`tournament_hub.rs` does not even include the `ranking_system` module). -/
theorem claim2_counterexample :
    (submit_results sActive 0 true 1 [[1]]).map
        (fun s4 => (s4.user_stats [1]).map UserStats.telo_rating) = Except.ok (some 1500)
    ∧ ((update_tournament_ratings sActive [[1], [2]] [[1]]).user_stats [1]).map
        UserStats.telo_rating = some 1513 :=
  ⟨rfl, rfl⟩

/-- claim2 (amended): for every tournament in Active status, a successful
submit requires a verified signature, a podium of the game's podium size
drawn from the participants; it stores the final podium, invokes the prize
distributor on the podium-updated tournament, leaves the tournament's
status equal to Completed, and increments `total_tournaments_completed` by
one (as a wrapping u64).  It does not invoke the TELO ranking update. -/
theorem claim2_amended (s : State) (now : Nat) (sig : Bool) (tid : Nat)
    (podium : List Address) (s4 : State)
    (h : submit_results s now sig tid podium = Except.ok s4) :
    ∃ t cfg s2, tournamentAt s tid = some t ∧ gameAt s t.game_id = some cfg
      ∧ t.status = TournamentStatus.Active
      ∧ sig = true
      ∧ podium.length = cfg.podium_size
      ∧ (∀ w ∈ podium, w ∈ t.participants)
      ∧ distribute_player_prizes s now
          { t with
            status := TournamentStatus.ProcessingResults,
            final_podium := podium } cfg = some s2
      ∧ s4 = { s2 with
          active_tournaments := s.active_tournaments.set (tid - 1)
            { t with
              status := TournamentStatus.Completed,
              final_podium := podium },
          total_tournaments_completed :=
            (s.total_tournaments_completed + 1) % U64MOD } :=
  submit_ok_spec s now sig tid podium s4 h

/-- claim2 (witness): the amended theorem applied to the concrete successful
submission on `sActive`. -/
theorem claim2_witness :
    ∃ t cfg s2, tournamentAt sActive 1 = some t ∧ gameAt sActive t.game_id = some cfg
      ∧ t.status = TournamentStatus.Active
      ∧ true = true
      ∧ ([[1]] : List Address).length = cfg.podium_size
      ∧ (∀ w ∈ ([[1]] : List Address), w ∈ t.participants)
      ∧ distribute_player_prizes sActive 0
          { t with
            status := TournamentStatus.ProcessingResults,
            final_podium := [[1]] } cfg = some s2
      ∧ sActiveRes = { s2 with
          active_tournaments := sActive.active_tournaments.set 0
            { t with
              status := TournamentStatus.Completed,
              final_podium := [[1]] },
          total_tournaments_completed :=
            (sActive.total_tournaments_completed + 1) % U64MOD } :=
  claim2_amended sActive 0 true 1 [[1]] sActiveRes rfl

lemma submit_not_active (s : State) (now : Nat) (sig : Bool) (tid : Nat)
    (podium : List Address) (t : Tournament) (cfg : GameConfig)
    (hT : tournamentAt s tid = some t) (hG : gameAt s t.game_id = some cfg)
    (hs : t.status ≠ TournamentStatus.Active) :
    submit_results s now sig tid podium =
      Except.error "UNIQUE_ERROR_MESSAGE_FOR_DEBUGGING_12345" := by
  simp only [submit_results, hT, hG]
  rw [if_neg hs]

/-- claim4: once a submit has succeeded the stored status is Completed, so
every subsequent submit for the same tournament fails — rejected by the
`status == Active` require (it aborts with that check's error message, so
the status precondition is the replay guard that fires; in the `Except`
model a failing call returns only an error and changes no state). -/
theorem claim4 (s : State) (now : Nat) (sig : Bool) (tid : Nat)
    (podium : List Address) (s4 : State)
    (h : submit_results s now sig tid podium = Except.ok s4) :
    ∀ (now2 : Nat) (sig2 : Bool) (podium2 : List Address),
      submit_results s4 now2 sig2 tid podium2 =
        Except.error "UNIQUE_ERROR_MESSAGE_FOR_DEBUGGING_12345" := by
  obtain ⟨t, cfg, s2, hT, hG, hstat, hsig, hlen, hmem, hD, hs4⟩ :=
    submit_ok_spec s now sig tid podium s4 h
  intro now2 sig2 podium2
  obtain ⟨ht0, hlt, hget⟩ := tournamentAt_some hT
  obtain ⟨p1, p2, p3, p4, p5⟩ := distribute_effects s now _ cfg s2 hD
  have hreg : s4.registered_games = s.registered_games := by
    rw [hs4]
    exact p3
  have hT2 : tournamentAt s4 tid = some
      ({ t with
        status := TournamentStatus.Completed,
        final_podium := podium }) := by
    subst hs4
    unfold tournamentAt
    simp only [List.length_set]
    rw [if_pos ⟨ht0, by omega⟩]
    exact List.get?_set_eq_of_lt _ hlt
  have hG2 : gameAt s4
      ({ t with
        status := TournamentStatus.Completed,
        final_podium := podium } : Tournament).game_id = some cfg := by
    unfold gameAt at hG ⊢
    rw [hreg]
    exact hG
  exact submit_not_active s4 now2 sig2 tid podium2
    { t with
      status := TournamentStatus.Completed,
      final_podium := podium } cfg hT2 hG2 (fun hc => TournamentStatus.noConfusion hc)

/-- claim4 (witness): the theorem applied to the concrete successful
submission on `sActive`; the immediate resubmission aborts with the status
check's error message. -/
theorem claim4_witness :
    submit_results sActiveRes 0 true 1 [[1]] =
      Except.error "UNIQUE_ERROR_MESSAGE_FOR_DEBUGGING_12345" :=
  claim4 sActive 0 true 1 [[1]] sActiveRes rfl 0 true [[1]]

lemma div_add_div_le (a b c : Nat) : a / c + b / c ≤ (a + b) / c := by
  rcases Nat.eq_zero_or_pos c with hc | hc
  · subst hc
    simp
  · rw [Nat.le_div_iff_mul_le hc, Nat.add_mul]
    exact Nat.add_le_add (Nat.div_mul_le_self a c) (Nat.div_mul_le_self b c)

lemma sum_map_div_le (P T : Nat) :
    ∀ ws : List Nat, (ws.map (fun w => P * w / T)).sum ≤ P * ws.sum / T
  | [] => by simp
  | w :: rest => by
    simp only [List.map_cons, List.sum_cons]
    calc P * w / T + (rest.map (fun x => P * x / T)).sum
        ≤ P * w / T + P * rest.sum / T :=
          Nat.add_le_add_left (sum_map_div_le P T rest) _
      _ ≤ (P * w + P * rest.sum) / T := div_add_div_le _ _ _
      _ = P * (w + rest.sum) / T := by rw [Nat.mul_add]

/-- claim5: for any spectator pool, house fee and podium-position share, and
any partition of the wagers on that position's winner among bettors, the sum
of the bettors' proportional shares
`floor(position_pool * wager / total_wagered)` never exceeds the position
pool `floor((pool - house_fee) * schedule_i / 10000)`. -/
theorem claim5 (total_spectator_pool house_fee_percentage position_percentage : Nat)
    (wagers : List Nat) (total_bet_on_winner : Nat)
    (hsum : wagers.sum = total_bet_on_winner) (hpos : 0 < total_bet_on_winner) :
    (wagers.map (fun w => spectator_share
        (spectator_position_pool
          (total_spectator_pool - total_spectator_pool * house_fee_percentage / 10000)
          position_percentage) w total_bet_on_winner)).sum
      ≤ spectator_position_pool
          (total_spectator_pool - total_spectator_pool * house_fee_percentage / 10000)
          position_percentage := by
  subst hsum
  have h1 := sum_map_div_le
    (spectator_position_pool
      (total_spectator_pool - total_spectator_pool * house_fee_percentage / 10000)
      position_percentage) wagers.sum wagers
  have h2 : spectator_position_pool
      (total_spectator_pool - total_spectator_pool * house_fee_percentage / 10000)
      position_percentage * wagers.sum / wagers.sum =
      spectator_position_pool
        (total_spectator_pool - total_spectator_pool * house_fee_percentage / 10000)
        position_percentage :=
    Nat.mul_div_cancel _ hpos
  simp only [spectator_share]
  exact le_trans h1 (le_of_eq h2)

/-- claim5 (witness): scenario E of the specification — two wagers of 50 on
the same winner, pool 100, house fee 0, first-place share 5000 bp: the two
shares sum to 50, the whole position pool of `floor(100 * 5000 / 10000)`. -/
theorem claim5_witness :
    ([50, 50].map (fun w => spectator_share
        (spectator_position_pool (100 - 100 * 0 / 10000) 5000) w 100)).sum
      ≤ spectator_position_pool (100 - 100 * 0 / 10000) 5000 :=
  claim5 100 0 5000 [50, 50] 100 (by decide) (by decide)

/-- claim6: a successful spectator claim requires the tournament to be
Completed and records the claim marker — the concatenated key
`get_claim_key` of the tournament id and the caller identity — after which
every later claim by the same caller for the same tournament aborts with
"Already claimed winnings". -/
theorem claim6 (s : State) (caller : Address) (tid : Nat) (s1 : State)
    (h : claim_spectator_winnings s caller tid = Except.ok s1) :
    (∃ t, tournamentAt s tid = some t ∧ t.status = TournamentStatus.Completed)
    ∧ s1.spectator_claims = s.spectator_claims ++ [get_claim_key tid caller]
    ∧ claim_spectator_winnings s1 caller tid =
        Except.error "Already claimed winnings" := by
  simp only [claim_spectator_winnings] at h
  cases hT : tournamentAt s tid with
  | none =>
    simp only [hT] at h
    exact Except.noConfusion h
  | some t =>
    simp only [hT] at h
    cases hG : gameAt s t.game_id with
    | none =>
      simp only [hG] at h
      exact Except.noConfusion h
    | some cfg =>
      simp only [hG] at h
      split_ifs at h with h1 h2 h3
      cases hW : caller_winnings_loop s caller tid cfg.prize_distribution_percentages
          (s.spectator_pool_total tid -
            s.spectator_pool_total tid * cfg.house_fee_percentage / 10000)
          0 t.final_podium with
      | none =>
        simp only [hW] at h
        exact Except.noConfusion h
      | some winnings =>
        simp only [hW] at h
        split_ifs at h with h4
        injection h with h5
        have hclaims : s1.spectator_claims =
            s.spectator_claims ++ [get_claim_key tid caller] := by
          rw [← h5]
          show bufSetInsert s.spectator_claims (get_claim_key tid caller) =
            s.spectator_claims ++ [get_claim_key tid caller]
          unfold bufSetInsert
          rw [if_neg h2]
        have hT1 : tournamentAt s1 tid = some t := by
          rw [← h5]
          exact hT
        have hG1 : gameAt s1 t.game_id = some cfg := by
          rw [← h5]
          exact hG
        have hmem : get_claim_key tid caller ∈ s1.spectator_claims := by
          rw [hclaims]
          simp
        refine ⟨⟨t, rfl, h1⟩, hclaims, ?_⟩
        simp only [claim_spectator_winnings, hT1, hG1]
        rw [if_pos h1, if_neg (not_not_intro hmem)]

/-- claim6 (witness): the theorem applied to the concrete first claim by
bettor `[7]` on the completed tournament of `sBet`; the immediate second
claim aborts with "Already claimed winnings". -/
theorem claim6_witness :
    (∃ t, tournamentAt sBet 1 = some t ∧ t.status = TournamentStatus.Completed)
    ∧ sBetRes.spectator_claims = sBet.spectator_claims ++ [get_claim_key 1 [7]]
    ∧ claim_spectator_winnings sBetRes [7] 1 =
        Except.error "Already claimed winnings" :=
  claim6 sBet [7] 1 sBetRes rfl

end TournamentHub
